import Mathlib

/-!
Shallow embedding of the core of the omen-linux fan-control repository
(src/omen_linux/hp_wmi.py, temperature.py, fan_control.py) and proofs of
the specified claims about it.

Modelling conventions:
- sysfs file reads are modelled by `SysRead`: a file is absent, its read is
  denied (open/read raises IOError or PermissionError), or it yields a value.
- mutable hardware state (the platform-profile file, its choices file, and
  the pwm1_enable boost file) is an explicit record `Hw`; writes return the
  new state together with the boolean success flag the Python code returns.
- Python float values here are only exact sensor quotients m / 1000.0, which
  we model as rationals; integer file contents are modelled at parse
  granularity (`Option Int`: `none` means int() raised ValueError).
-/

/-- Outcome of reading one sysfs file: missing, permission/IO failure on an
existing file, or its (already stripped) content. -/
inductive SysRead (α : Type) where
  | absent : SysRead α
  | denied : SysRead α
  | ok : α → SysRead α
deriving DecidableEq, Repr

/-- Python substring primitive: does the character list start with needle? -/
def hasStart : List Char → List Char → Bool
  | [], _ => true
  | _ :: _, [] => false
  | a :: as, b :: bs => a == b && hasStart as bs

/-- Python substring primitive: does needle occur anywhere in the haystack? -/
def hasSub (needle : List Char) : List Char → Bool
  | [] => hasStart needle []
  | b :: bs => hasStart needle (b :: bs) || hasSub needle bs

/-- Model of the Python expression `needle in hay` on strings. -/
def pyIn (needle hay : String) : Bool :=
  hasSub needle.toList hay.toList

/-- Model of Python str.lower() on the ASCII strings this program handles. -/
def pyLower (s : String) : String :=
  String.mk (s.toList.map Char.toLower)

/-- PerformanceMode from hp_wmi.py: the three platform-profile tiers. -/
inductive PerformanceMode where
  | QUIET : PerformanceMode
  | BALANCED : PerformanceMode
  | PERFORMANCE : PerformanceMode
deriving DecidableEq, Repr

/-- MaxFanMode from hp_wmi.py: the boost toggle. -/
inductive MaxFanMode where
  | OFF : MaxFanMode
  | ON : MaxFanMode
deriving DecidableEq, Repr

/-- FanMode from fan_control.py: the five user-facing modes. -/
inductive FanMode where
  | QUIET : FanMode
  | BALANCED : FanMode
  | PERFORMANCE : FanMode
  | MAX : FanMode
  | OFF : FanMode
deriving DecidableEq, Repr

/-- Immutable per-process state of HpWmiInterface captured by __init__:
the two availability flags and the detected hp-wmi hwmon path. -/
structure HpWmi where
  hp_wmi_available : Bool
  platform_profile_available : Bool
  hwmon_hp_wmi_path : Option String
deriving DecidableEq, Repr

/-- Mutable hardware state behind the controller: the platform_profile file,
the platform_profile_choices file and the pwm1_enable file under the detected
hp-wmi hwmon path.  Existence, read permission and write permission are
tracked separately, exactly the distinctions the Python code can observe. -/
structure Hw where
  profile_exists : Bool
  profile_content : String
  profile_read_ok : Bool
  profile_write_ok : Bool
  choices_exists : Bool
  choices_tokens : List String
  choices_read_ok : Bool
  pwm_exists : Bool
  pwm_content : Option Int
  pwm_read_ok : Bool
  pwm_write_ok : Bool
deriving DecidableEq, Repr

/-- HpWmiInterface.get_available_profiles: missing or unreadable choices file
yields the empty list, otherwise the whitespace-separated token list. -/
def get_available_profiles (hw : Hw) : List String :=
  if hw.choices_exists = false then []
  else if hw.choices_read_ok = false then []
  else hw.choices_tokens

/-- The profile_map dictionary of HpWmiInterface.get_current_mode, with the
dict.get default of BALANCED for unrecognized profile strings. -/
def profile_map (profile : String) : PerformanceMode :=
  if profile == "low-power" then PerformanceMode.QUIET
  else if profile == "quiet" then PerformanceMode.QUIET
  else if profile == "balanced" then PerformanceMode.BALANCED
  else if profile == "performance" then PerformanceMode.PERFORMANCE
  else PerformanceMode.BALANCED

/-- HpWmiInterface.get_current_mode: None when the availability flag is down
or the open/read of the profile file raises, else the mapped profile. -/
def get_current_mode (i : HpWmi) (hw : Hw) : Option PerformanceMode :=
  if i.platform_profile_available = false then none
  else if hw.profile_exists && hw.profile_read_ok then
    some (profile_map hw.profile_content)
  else none

/-- HpWmiInterface.get_max_fan: reads pwm1_enable under the detected hp-wmi
hwmon path; 0 means boost on, anything else off; any failure yields None. -/
def get_max_fan (i : HpWmi) (hw : Hw) : Option MaxFanMode :=
  match i.hwmon_hp_wmi_path with
  | none => none
  | some _ =>
    if hw.pwm_exists = false then none
    else if hw.pwm_read_ok = false then none
    else
      match hw.pwm_content with
      | none => none
      | some v => if v == 0 then some MaxFanMode.ON else some MaxFanMode.OFF

/-- HpWmiInterface.set_max_fan: writes 0 (boost) or 2 (auto) to pwm1_enable;
returns the success flag and the possibly updated hardware state. -/
def set_max_fan (i : HpWmi) (hw : Hw) (mode : MaxFanMode) : Bool × Hw :=
  match i.hwmon_hp_wmi_path with
  | none => (false, hw)
  | some _ =>
    if hw.pwm_exists = false then (false, hw)
    else if hw.pwm_write_ok = false then (false, hw)
    else
      let v : Int := match mode with | MaxFanMode.ON => 0 | MaxFanMode.OFF => 2
      (true, { hw with pwm_content := some v })

/-- The profile_variations dictionary of HpWmiInterface.set_mode. -/
def profile_variations (mode : PerformanceMode) : List String :=
  match mode with
  | PerformanceMode.QUIET => ["low-power", "quiet"]
  | PerformanceMode.BALANCED => ["balanced"]
  | PerformanceMode.PERFORMANCE => ["performance"]

/-- The candidate-selection loop of HpWmiInterface.set_mode: the first
variation that occurs in the advertised legal-value list. -/
def pick_profile (variations available : List String) : Option String :=
  variations.find? (fun v => available.contains v)

/-- HpWmiInterface.set_mode: fail when the profile surface is unavailable or
no candidate is legal; otherwise write the chosen profile string. -/
def hp_set_mode (i : HpWmi) (hw : Hw) (mode : PerformanceMode) : Bool × Hw :=
  if i.platform_profile_available = false then (false, hw)
  else
    match pick_profile (profile_variations mode) (get_available_profiles hw) with
    | none => (false, hw)
    | some p =>
      if hw.profile_write_ok then
        (true, { hw with profile_exists := true, profile_content := p })
      else (false, hw)

/-- The mode_map dictionary of FanController.get_status (PerformanceMode to
FanMode; the dict.get default of BALANCED is unreachable since all three
constructors are keys). -/
def status_mode_map (pm : PerformanceMode) : FanMode :=
  match pm with
  | PerformanceMode.QUIET => FanMode.QUIET
  | PerformanceMode.BALANCED => FanMode.BALANCED
  | PerformanceMode.PERFORMANCE => FanMode.PERFORMANCE

/-- Composition used by FanController.get_status to turn a successfully read
profile string into the displayed FanMode. -/
def status_mode_of_profile (s : String) : FanMode :=
  status_mode_map (profile_map s)

/-- SystemStatus record of fan_control.py. -/
structure SystemStatus where
  cpu_temp : Option ℚ
  gpu_temp : Option ℚ
  fan_mode : Option FanMode
  fan_speeds : List (String × Int)
  max_fan_enabled : Bool
  is_available : Bool
deriving DecidableEq, Repr

/-- FanController.get_status: derive the displayed fan mode from the profile
and the boost state, boost overriding to MAX; the temperature summary and fan
speed list are read elsewhere and passed through unchanged. -/
def get_status (i : HpWmi) (hw : Hw) (cpu gpu : Option ℚ)
    (speeds : List (String × Int)) : SystemStatus :=
  let fan_mode : Option FanMode :=
    match get_current_mode i hw with
    | none => none
    | some pm => some (status_mode_map pm)
  let max_fan_enabled : Bool :=
    match get_max_fan i hw with
    | some m => m == MaxFanMode.ON
    | none => false
  { cpu_temp := cpu
    gpu_temp := gpu
    fan_mode := if max_fan_enabled then some FanMode.MAX else fan_mode
    fan_speeds := speeds
    max_fan_enabled := max_fan_enabled
    is_available := i.hp_wmi_available || i.platform_profile_available }

/-- The mode_map dictionary of FanController.set_mode (FanMode to
PerformanceMode; MAX and OFF are not keys, so dict.get yields None). -/
def controller_mode_map (mode : FanMode) : Option PerformanceMode :=
  match mode with
  | FanMode.QUIET => some PerformanceMode.QUIET
  | FanMode.BALANCED => some PerformanceMode.BALANCED
  | FanMode.PERFORMANCE => some PerformanceMode.PERFORMANCE
  | _ => none

/-- FanController.set_mode: MAX and OFF only touch the boost file; the three
normal modes first clear an active boost (discarding that writes result) and
then delegate to HpWmiInterface.set_mode. -/
def set_mode (i : HpWmi) (hw : Hw) (mode : FanMode) : Bool × Hw :=
  match mode with
  | FanMode.MAX => set_max_fan i hw MaxFanMode.ON
  | FanMode.OFF => set_max_fan i hw MaxFanMode.OFF
  | _ =>
    let hw1 :=
      if get_max_fan i hw = some MaxFanMode.ON then (set_max_fan i hw MaxFanMode.OFF).2
      else hw
    match controller_mode_map mode with
    | some pm => hp_set_mode i hw1 pm
    | none => (false, hw1)

/-- TemperatureReading dataclass of temperature.py, with Celsius values as
exact rationals. -/
structure TemperatureReading where
  label : String
  device : String
  temperature : ℚ
  critical : Option ℚ
  max_temp : Option ℚ
deriving DecidableEq, Repr

/-- One temp<N> channel of a hwmon directory as the scanner sees it:
the parse result of temp<N>_input (none when open or int() fails, in which
case the whole reading is skipped), the state of the sibling label file, and
the parse results of the optional crit and max sibling files (collapsed to
none on absence, denial or parse failure, exactly as the inner try blocks
do). -/
structure TempChannel where
  idx : Nat
  inputVal : Option Int
  labelF : SysRead String
  critV : Option Int
  maxV : Option Int
deriving DecidableEq, Repr

/-- Body of the per-channel loop of
TemperatureMonitor._read_temperatures_from_hwmon: build the reading, divide
raw millidegrees by 1000, synthesize the label when the label file is
absent, and skip the channel when the input read or the label read raises. -/
def readChannel (device_name : String) (ch : TempChannel) :
    Option TemperatureReading :=
  match ch.inputVal with
  | none => none
  | some m =>
    match ch.labelF with
    | SysRead.denied => none
    | SysRead.absent =>
      some { label := device_name ++ "_temp" ++ toString ch.idx
             device := device_name
             temperature := (m : ℚ) / 1000
             critical := ch.critV.map (fun c => (c : ℚ) / 1000)
             max_temp := ch.maxV.map (fun c => (c : ℚ) / 1000) }
    | SysRead.ok s =>
      some { label := s
             device := device_name
             temperature := (m : ℚ) / 1000
             critical := ch.critV.map (fun c => (c : ℚ) / 1000)
             max_temp := ch.maxV.map (fun c => (c : ℚ) / 1000) }

/-- TemperatureMonitor._read_temperatures_from_hwmon over the channel files
of one hwmon directory. -/
def read_temperatures_from_hwmon (device_name : String)
    (chans : List TempChannel) : List TemperatureReading :=
  chans.filterMap (readChannel device_name)

/-- One enumerated /sys/class/hwmon device: its directory path, the state of
its name file, and its temperature channels. -/
structure HwmonDevice where
  path : String
  nameF : SysRead String
  temps : List TempChannel
deriving DecidableEq, Repr

/-- Assignment d[k] = v on a Python dict represented as its item list:
replace the value at an existing key in place, else append the pair. -/
def dictSet : List (String × String) → String → String → List (String × String)
  | [], k, v => [(k, v)]
  | (k1, v1) :: rest, k, v =>
    if k1 == k then (k, v) :: rest else (k1, v1) :: dictSet rest k v

/-- Lookup d.get(k) on the item-list representation of a Python dict. -/
def dictGet : List (String × String) → String → Option String
  | [], _ => none
  | (k1, v1) :: rest, k => if k1 == k then some v1 else dictGet rest k

/-- TemperatureMonitor._discover_hwmon_devices: fold the enumerated hwmon
directories into the name-keyed dict, skipping devices whose name file is
missing or whose read raises IOError. -/
def discover_hwmon_devices (devs : List HwmonDevice) : List (String × String) :=
  devs.foldl
    (fun d dev =>
      match dev.nameF with
      | SysRead.ok n => dictSet d n dev.path
      | _ => d)
    []

/-- The temperature channels found under a given hwmon directory path. -/
def tempsAt (devs : List HwmonDevice) (p : String) : List TempChannel :=
  match devs.find? (fun dev => dev.path == p) with
  | some dev => dev.temps
  | none => []

/-- TemperatureMonitor.get_all_temperatures: scan every entry of the
discovered name-to-path dict in insertion order. -/
def get_all_temperatures (devs : List HwmonDevice) : List TemperatureReading :=
  (discover_hwmon_devices devs).flatMap
    (fun nv => read_temperatures_from_hwmon nv.1 (tempsAt devs nv.2))

/-- Device-major search loop shared by get_cpu_temperature and
get_gpu_temperature: for each device name in order, return the first reading
owned by that device that satisfies the (device-dependent) extra predicate. -/
def firstMatch (ds : List String) (q : String → TemperatureReading → Bool)
    (readings : List TemperatureReading) : Option TemperatureReading :=
  match ds with
  | [] => none
  | d :: rest =>
    match readings.find? (fun r => r.device == d && q d r) with
    | some r => some r
    | none => firstMatch rest q readings

/-- The cpu_devices list of TemperatureMonitor.get_cpu_temperature. -/
def cpu_devices : List String := ["coretemp", "k10temp", "zenpower"]

/-- Label preference of the first CPU pass: label contains package or tctl,
case-insensitively. -/
def cpuLabelPref (r : TemperatureReading) : Bool :=
  pyIn "package" (pyLower r.label) || pyIn "tctl" (pyLower r.label)

/-- TemperatureMonitor.get_cpu_temperature applied to the readings returned
by get_all_temperatures: preferred-label pass over the known CPU devices,
then any reading of a known CPU device, then any reading whose label
contains cpu, else none. -/
def get_cpu_temperature (readings : List TemperatureReading) : Option ℚ :=
  match firstMatch cpu_devices (fun _ r => cpuLabelPref r) readings with
  | some r => some r.temperature
  | none =>
    match firstMatch cpu_devices (fun _ _ => true) readings with
    | some r => some r.temperature
    | none =>
      match readings.find? (fun r => pyIn "cpu" (pyLower r.label)) with
      | some r => some r.temperature
      | none => none

/-- The gpu_devices list of TemperatureMonitor.get_gpu_temperature. -/
def gpu_devices : List String := ["amdgpu", "nvidia", "nouveau"]

/-- Label preference of the first GPU pass: label contains edge or junction,
case-insensitively. -/
def gpuLabelPref (r : TemperatureReading) : Bool :=
  pyIn "edge" (pyLower r.label) || pyIn "junction" (pyLower r.label)

/-- TemperatureMonitor.get_gpu_temperature applied to the readings returned
by get_all_temperatures; in the first pass a reading of an nvidia or nouveau
device is accepted unconditionally, while amdgpu readings need an edge or
junction label; nvidia_smi is the result of the bounded nvidia-smi
subprocess fallback (none on any failure). -/
def get_gpu_temperature (readings : List TemperatureReading)
    (nvidia_smi : Option ℚ) : Option ℚ :=
  match firstMatch gpu_devices
      (fun d r => gpuLabelPref r || (d == "nvidia" || d == "nouveau")) readings with
  | some r => some r.temperature
  | none =>
    match firstMatch gpu_devices (fun _ _ => true) readings with
    | some r => some r.temperature
    | none =>
      match nvidia_smi with
      | some t => some t
      | none => none

/-- Outcome of HpWmiInterface._detect_hp_wmi_hwmon, including the
possibility that an exception escapes it (and hence escapes __init__, since
no caller catches it). -/
inductive DetectResult where
  | raised : DetectResult
  | found : String → DetectResult
  | notFound : DetectResult
deriving DecidableEq, Repr

/-- Fallback loop of HpWmiInterface._detect_hp_wmi_hwmon over the
/sys/class/hwmon devices (path paired with the state of its name file): a
name file whose open or read raises is NOT guarded by any try block in the
source, so the exception propagates. -/
def scanForHp : List (String × SysRead String) → DetectResult
  | [] => DetectResult.notFound
  | (path, nf) :: rest =>
    match nf with
    | SysRead.absent => scanForHp rest
    | SysRead.denied => DetectResult.raised
    | SysRead.ok content =>
      if pyIn "hp" (pyLower content) then DetectResult.found path
      else scanForHp rest

/-- HpWmiInterface._detect_hp_wmi_hwmon: nothing to do when hp-wmi is
absent; else take the first glob match under hp-wmi/hwmon; else run the
fallback scan over all hwmon devices. -/
def detect_hp_wmi_hwmon (hp_wmi_available : Bool) (child_glob : List String)
    (devs : List (String × SysRead String)) : DetectResult :=
  if hp_wmi_available = false then DetectResult.notFound
  else
    match child_glob with
    | p :: _ => DetectResult.found p
    | [] => scanForHp devs

/-- Name-file check of the last-wins specification: does this device declare
the given name? -/
def readsName (dev : HwmonDevice) (n : String) : Bool :=
  match dev.nameF with
  | SysRead.ok m => m == n
  | _ => false

/-- Left-biased choice on options, used to state last-wins lookups. -/
def optOr {α : Type} (a b : Option α) : Option α :=
  match a with
  | some x => some x
  | none => b

/-- Path of the last-enumerated device whose name file reads as the given
name (the value the claims say the name-keyed dict must retain). -/
def lastNamedPath : List HwmonDevice → String → Option String
  | [], _ => none
  | dev :: rest, n =>
    optOr (lastNamedPath rest n)
      (if readsName dev n then some dev.path else none)

/-- First spec tier of CPU resolution: a reading owned by one of the known
CPU devices whose label contains package or tctl case-insensitively. -/
def cpuTier1 (r : TemperatureReading) : Bool :=
  (r.device == "coretemp" || r.device == "k10temp" || r.device == "zenpower")
    && cpuLabelPref r

/-- Second spec tier of CPU resolution: any reading owned by one of the
known CPU devices. -/
def cpuTier2 (r : TemperatureReading) : Bool :=
  r.device == "coretemp" || r.device == "k10temp" || r.device == "zenpower"

/-- Third spec tier of CPU resolution: any reading whose label contains cpu
case-insensitively. -/
def cpuTier3 (r : TemperatureReading) : Bool :=
  pyIn "cpu" (pyLower r.label)

/-- Interface state of a machine where every control surface was detected. -/
def exIface : HpWmi :=
  { hp_wmi_available := true
    platform_profile_available := true
    hwmon_hp_wmi_path := some "hwmon4" }

/-- Hardware state with boost on, full permissions and all three canonical
profile choices advertised. -/
def exHwBoostOn : Hw :=
  { profile_exists := true
    profile_content := "balanced"
    profile_read_ok := true
    profile_write_ok := true
    choices_exists := true
    choices_tokens := ["low-power", "balanced", "performance"]
    choices_read_ok := true
    pwm_exists := true
    pwm_content := some 0
    pwm_read_ok := true
    pwm_write_ok := true }

/-- Hardware state with boost on and full permissions, on a platform whose
advertised choices contain neither low-power nor quiet. -/
def exHwNoQuiet : Hw :=
  { profile_exists := true
    profile_content := "balanced"
    profile_read_ok := true
    profile_write_ok := true
    choices_exists := true
    choices_tokens := ["balanced", "performance"]
    choices_read_ok := true
    pwm_exists := true
    pwm_content := some 0
    pwm_read_ok := true
    pwm_write_ok := true }

/-- Hardware state with boost on but a write-protected pwm1_enable file,
while the profile surface is fully writable. -/
def exHwBoostStuck : Hw :=
  { profile_exists := true
    profile_content := "balanced"
    profile_read_ok := true
    profile_write_ok := true
    choices_exists := true
    choices_tokens := ["low-power", "balanced", "performance"]
    choices_read_ok := true
    pwm_exists := true
    pwm_content := some 0
    pwm_read_ok := true
    pwm_write_ok := false }

/-- First of two enumerated hwmon devices that both declare the name foo;
its single channel reads 40000 millidegrees. -/
def exDevShadowed : HwmonDevice :=
  { path := "p1", nameF := SysRead.ok "foo",
    temps := [{ idx := 1, inputVal := some 40000,
                labelF := SysRead.absent, critV := none, maxV := none }] }

/-- Second device also named foo; its single channel reads 50000
millidegrees, shadowing the first in the name-keyed dict. -/
def exDevShadowing : HwmonDevice :=
  { path := "p2", nameF := SysRead.ok "foo",
    temps := [{ idx := 1, inputVal := some 50000,
                labelF := SysRead.absent, critV := none, maxV := none }] }

/-- Device whose channel exposes 45000 millidegrees with crit 100000 and
max 95000, for the conversion witness. -/
def exDevMilli : HwmonDevice :=
  { path := "pm", nameF := SysRead.ok "foo",
    temps := [{ idx := 1, inputVal := some 45000,
                labelF := SysRead.absent, critV := some 100000,
                maxV := some 95000 }] }

/-- The reading the scan derives from exDevMilli. -/
def exReadingMilli : TemperatureReading :=
  { label := "foo_temp1", device := "foo", temperature := 45,
    critical := some 100, max_temp := some 95 }

theorem set_max_fan_frame (i : HpWmi) (hw : Hw) (m : MaxFanMode) :
    (set_max_fan i hw m).2 =
      { hw with pwm_content := (set_max_fan i hw m).2.pwm_content } := by
  cases hmp : i.hwmon_hp_wmi_path with
  | none => simp only [set_max_fan, hmp]
  | some p =>
    by_cases h1 : hw.pwm_exists = false
    · simp only [set_max_fan, hmp, if_pos h1]
    · by_cases h2 : hw.pwm_write_ok = false
      · simp only [set_max_fan, hmp, if_neg h1, if_pos h2]
      · simp only [set_max_fan, hmp, if_neg h1, if_neg h2]

theorem get_available_profiles_after_boost_write (i : HpWmi) (hw : Hw)
    (m : MaxFanMode) :
    get_available_profiles (set_max_fan i hw m).2 = get_available_profiles hw := by
  rw [set_max_fan_frame]; exact rfl

theorem hp_set_mode_fail_of_pick_none (i : HpWmi) (hw : Hw)
    (pm : PerformanceMode)
    (h : pick_profile (profile_variations pm) (get_available_profiles hw) = none) :
    hp_set_mode i hw pm = (false, hw) := by
  by_cases ha : i.platform_profile_available = false <;> simp [hp_set_mode, ha, h]

theorem set_mode_normal_eq (i : HpWmi) (hw : Hw) (mode : FanMode)
    (pm : PerformanceMode) (hpm : controller_mode_map mode = some pm) :
    set_mode i hw mode =
      hp_set_mode i
        (if get_max_fan i hw = some MaxFanMode.ON
          then (set_max_fan i hw MaxFanMode.OFF).2 else hw) pm := by
  cases mode <;> simp_all [controller_mode_map, set_mode]

theorem get_max_fan_on_elim (i : HpWmi) (hw : Hw)
    (h : get_max_fan i hw = some MaxFanMode.ON) :
    i.hwmon_hp_wmi_path.isSome = true ∧ hw.pwm_exists = true ∧
      hw.pwm_read_ok = true ∧ hw.pwm_content = some 0 := by
  cases hmp : i.hwmon_hp_wmi_path with
  | none => rw [get_max_fan, hmp] at h; cases h
  | some p =>
    rw [get_max_fan, hmp] at h
    by_cases h1 : hw.pwm_exists = false
    · simp [h1] at h
    · by_cases h2 : hw.pwm_read_ok = false
      · simp [h1, h2] at h
      · cases hc : hw.pwm_content with
        | none => simp [h1, h2, hc] at h
        | some v =>
          simp [h1, h2, hc] at h
          refine ⟨by simp [hmp], by simpa using h1, by simpa using h2, ?_⟩
          simp [hc, h]

/-- C1: whenever the pwm1_enable file of the detected hp-wmi hwmon device
reads as 0 (boost on), get_status reports fan mode MAX, for every profile
file content, every profile availability state and every temperature or fan
speed input; the fan_mode field is a single optional value, so at most one
FanMode is reported per query by construction. -/
theorem boost_overrides_profile_in_status (i : HpWmi) (hw : Hw)
    (hpath : i.hwmon_hp_wmi_path.isSome = true)
    (hex : hw.pwm_exists = true) (hrd : hw.pwm_read_ok = true)
    (hv : hw.pwm_content = some 0)
    (cpu gpu : Option ℚ) (speeds : List (String × Int)) :
    (get_status i hw cpu gpu speeds).fan_mode = some FanMode.MAX := by
  obtain ⟨p, hp⟩ := Option.isSome_iff_exists.mp hpath
  simp [get_status, get_max_fan, hp, hex, hrd, hv]

/-- Witness for C1 at a fully concrete machine state. -/
theorem boost_overrides_profile_in_status_witness :
    (get_status exIface exHwBoostOn none none []).fan_mode = some FanMode.MAX :=
  boost_overrides_profile_in_status exIface exHwBoostOn rfl rfl rfl rfl none none []

/-- C7: set_mode MAX and set_mode OFF only ever touch the pwm1_enable file:
for every prior hardware state, whether the boost write succeeds or fails,
the resulting state agrees with the prior state on every field except
possibly pwm_content, and in particular the stored platform-profile value is
identical before and after. -/
theorem set_mode_max_off_profile_frame (i : HpWmi) (hw : Hw) :
    (set_mode i hw FanMode.MAX).2.profile_content = hw.profile_content ∧
    (set_mode i hw FanMode.OFF).2.profile_content = hw.profile_content ∧
    (set_mode i hw FanMode.MAX).2 =
      { hw with pwm_content := (set_mode i hw FanMode.MAX).2.pwm_content } ∧
    (set_mode i hw FanMode.OFF).2 =
      { hw with pwm_content := (set_mode i hw FanMode.OFF).2.pwm_content } := by
  have hM : set_mode i hw FanMode.MAX = set_max_fan i hw MaxFanMode.ON := rfl
  have hO : set_mode i hw FanMode.OFF = set_max_fan i hw MaxFanMode.OFF := rfl
  have h1 := set_max_fan_frame i hw MaxFanMode.ON
  have h2 := set_max_fan_frame i hw MaxFanMode.OFF
  refine ⟨?_, ?_, by rw [hM]; exact h1, by rw [hO]; exact h2⟩
  · rw [hM, h1]
  · rw [hO, h2]

/-- C2 counterexample: with boost on and a legal-value set containing
neither low-power nor quiet, set_mode QUIET does return failure, but it
mutates BoostState: pwm1_enable goes from 0 (boost) to 2 (auto), so the
claim that no state is mutated is false on the code. -/
theorem set_mode_illegal_target_counterexample :
    (set_mode exIface exHwNoQuiet FanMode.QUIET).1 = false ∧
    exHwNoQuiet.pwm_content = some 0 ∧
    (set_mode exIface exHwNoQuiet FanMode.QUIET).2.pwm_content = some 2 := by
  decide

/-- C2 amended: for every target among QUIET, BALANCED and PERFORMANCE,
when no candidate from the targets list is legal the call fails and
PlatformProfile is not mutated; BoostState is also unchanged when it was not
on, but a BoostState that was on has already received the best-effort
clearing write by the time the legality check fails. -/
theorem set_mode_illegal_target_amended (i : HpWmi) (hw : Hw) (mode : FanMode)
    (pm : PerformanceMode) (hpm : controller_mode_map mode = some pm)
    (hnone : pick_profile (profile_variations pm) (get_available_profiles hw) = none) :
    (set_mode i hw mode).1 = false ∧
    (set_mode i hw mode).2.profile_content = hw.profile_content ∧
    (set_mode i hw mode).2.profile_exists = hw.profile_exists ∧
    (get_max_fan i hw ≠ some MaxFanMode.ON → (set_mode i hw mode).2 = hw) ∧
    (get_max_fan i hw = some MaxFanMode.ON →
      (set_mode i hw mode).2 = (set_max_fan i hw MaxFanMode.OFF).2) := by
  have heq := set_mode_normal_eq i hw mode pm hpm
  by_cases hb : get_max_fan i hw = some MaxFanMode.ON
  · have hnone2 : pick_profile (profile_variations pm)
        (get_available_profiles (set_max_fan i hw MaxFanMode.OFF).2) = none := by
      rw [get_available_profiles_after_boost_write]; exact hnone
    have hres : set_mode i hw mode = (false, (set_max_fan i hw MaxFanMode.OFF).2) := by
      rw [heq, if_pos hb]
      exact hp_set_mode_fail_of_pick_none i _ pm hnone2
    have hfr := set_max_fan_frame i hw MaxFanMode.OFF
    refine ⟨by rw [hres], ?_, ?_, fun hcon => absurd hb hcon, fun _ => by rw [hres]⟩
    · rw [hres]; rw [hfr]
    · rw [hres]; rw [hfr]
  · have hres : set_mode i hw mode = (false, hw) := by
      rw [heq, if_neg hb]
      exact hp_set_mode_fail_of_pick_none i hw pm hnone
    exact ⟨by rw [hres], by rw [hres], by rw [hres], fun _ => by rw [hres],
      fun hcon => absurd hcon hb⟩

/-- Witness for the amended C2 at a concrete boost-on state whose platform
advertises only balanced and performance. -/
theorem set_mode_illegal_target_amended_witness :
    (set_mode exIface exHwNoQuiet FanMode.QUIET).1 = false ∧
    (set_mode exIface exHwNoQuiet FanMode.QUIET).2.profile_content =
      exHwNoQuiet.profile_content ∧
    (set_mode exIface exHwNoQuiet FanMode.QUIET).2 =
      (set_max_fan exIface exHwNoQuiet MaxFanMode.OFF).2 := by
  have h := set_mode_illegal_target_amended exIface exHwNoQuiet FanMode.QUIET
    PerformanceMode.QUIET rfl (by decide)
  exact ⟨h.1, h.2.1, h.2.2.2.2 (by decide)⟩

/-- C8: when a normal-mode set_mode finds boost on, the result of the
clearing write is discarded: if that write fails while the profile write
succeeds, the call still returns true, pwm1_enable still holds 0, and the
next get_status still reports MAX. -/
theorem boost_clear_failure_discarded (i : HpWmi) (hw : Hw) (mode : FanMode)
    (pm : PerformanceMode) (hpm : controller_mode_map mode = some pm)
    (hon : get_max_fan i hw = some MaxFanMode.ON)
    (hwfail : hw.pwm_write_ok = false)
    (hav : i.platform_profile_available = true)
    (c : String)
    (hc : pick_profile (profile_variations pm) (get_available_profiles hw) = some c)
    (hpw : hw.profile_write_ok = true) :
    (set_mode i hw mode).1 = true ∧
    (set_mode i hw mode).2.pwm_content = hw.pwm_content ∧
    (get_status i (set_mode i hw mode).2 none none []).fan_mode = some FanMode.MAX := by
  obtain ⟨hpath, hex, hrd, hv⟩ := get_max_fan_on_elim i hw hon
  obtain ⟨p, hp⟩ := Option.isSome_iff_exists.mp hpath
  have hclear : set_max_fan i hw MaxFanMode.OFF = (false, hw) := by
    rw [set_max_fan, hp]
    rw [if_neg (by simp [hex]), if_pos hwfail]
  have hres : set_mode i hw mode =
      (true, { hw with profile_exists := true, profile_content := c }) := by
    rw [set_mode_normal_eq i hw mode pm hpm, if_pos hon, hclear]
    show hp_set_mode i hw pm = _
    simp [hp_set_mode, hav, hc, hpw]
  rw [hres]
  refine ⟨rfl, rfl, ?_⟩
  exact boost_overrides_profile_in_status i
    { hw with profile_exists := true, profile_content := c }
    hpath hex hrd hv none none []

/-- Witness for C8: boost on, pwm1_enable write-protected, profile surface
fully writable with low-power advertised. -/
theorem boost_clear_failure_discarded_witness :
    (set_mode exIface exHwBoostStuck FanMode.QUIET).1 = true ∧
    (set_mode exIface exHwBoostStuck FanMode.QUIET).2.pwm_content =
      exHwBoostStuck.pwm_content ∧
    (get_status exIface (set_mode exIface exHwBoostStuck FanMode.QUIET).2
      none none []).fan_mode = some FanMode.MAX :=
  boost_clear_failure_discarded exIface exHwBoostStuck FanMode.QUIET
    PerformanceMode.QUIET rfl (by decide) rfl rfl "low-power" (by decide) rfl

/-- C3 counterexample: with exactly the readings (amdgpu, edge, 60) then
(amdgpu, junction, 75) in scan order, get_gpu_temperature does not return
75: the single conditional accepts edge and junction alike, so the claimed
junction-over-edge preference is false on the code. -/
theorem gpu_junction_preference_counterexample :
    get_gpu_temperature
      [{ label := "edge", device := "amdgpu", temperature := 60,
         critical := none, max_temp := none },
       { label := "junction", device := "amdgpu", temperature := 75,
         critical := none, max_temp := none }]
      none ≠ some 75 := by
  decide

/-- C3 amended: on those readings get_gpu_temperature returns 60.0, the
first reading in scan order whose label contains edge or junction; junction
is not preferred over edge. -/
theorem gpu_first_edge_or_junction_wins :
    get_gpu_temperature
      [{ label := "edge", device := "amdgpu", temperature := 60,
         critical := none, max_temp := none },
       { label := "junction", device := "amdgpu", temperature := 75,
         critical := none, max_temp := none }]
      none = some 60 := by
  decide

/-- C4: contrary to the claim, a permission-denied read of a hwmon name
file during the hp-wmi fallback scan is not treated as absent: the
unguarded open in _detect_hp_wmi_hwmon lets the exception escape __init__,
while the analogous loop in _discover_hwmon_devices (second conjunct)
catches IOError and records nothing, exactly as the claim demands. -/
theorem detect_hp_hwmon_denied_name_raises :
    detect_hp_wmi_hwmon true [] [("hwmon0", SysRead.denied)] =
      DetectResult.raised ∧
    discover_hwmon_devices
      [{ path := "hwmon0", nameF := SysRead.denied, temps := [] }] = [] :=
  ⟨rfl, rfl⟩

/-- C6: the status mapping sends both low-power and quiet to the Quiet
tier, balanced to Balanced, performance to Performance, and every other
profile string to Balanced. -/
theorem profile_string_mapping (s : String)
    (h1 : s ≠ "low-power") (h2 : s ≠ "quiet") (h3 : s ≠ "balanced")
    (h4 : s ≠ "performance") :
    status_mode_of_profile "low-power" = FanMode.QUIET ∧
    status_mode_of_profile "quiet" = FanMode.QUIET ∧
    status_mode_of_profile "balanced" = FanMode.BALANCED ∧
    status_mode_of_profile "performance" = FanMode.PERFORMANCE ∧
    status_mode_of_profile s = FanMode.BALANCED := by
  refine ⟨rfl, rfl, rfl, rfl, ?_⟩
  simp [status_mode_of_profile, profile_map, status_mode_map, h1, h2, h3, h4]

/-- Witness for C6 at the unrecognized profile string turbo. -/
theorem profile_string_mapping_witness :
    status_mode_of_profile "low-power" = FanMode.QUIET ∧
    status_mode_of_profile "quiet" = FanMode.QUIET ∧
    status_mode_of_profile "balanced" = FanMode.BALANCED ∧
    status_mode_of_profile "performance" = FanMode.PERFORMANCE ∧
    status_mode_of_profile "turbo" = FanMode.BALANCED :=
  profile_string_mapping "turbo" (by decide) (by decide) (by decide) (by decide)

theorem firstMatch_eq_none_iff {ds : List String}
    {q : String → TemperatureReading → Bool}
    {readings : List TemperatureReading} :
    firstMatch ds q readings = none ↔
      ∀ d ∈ ds, readings.find? (fun r => r.device == d && q d r) = none := by
  induction ds with
  | nil => simp [firstMatch]
  | cons d rest ih =>
    cases hf : readings.find? (fun r => r.device == d && q d r) with
    | some r0 =>
      simp only [firstMatch, hf]
      constructor
      · intro h; cases h
      · intro h
        have hcon := h d (by simp)
        rw [hf] at hcon
        cases hcon
    | none =>
      simp only [firstMatch, hf]
      rw [ih]
      constructor
      · intro h d2 hd2
        rcases List.mem_cons.mp hd2 with rfl | hd2
        · exact hf
        · exact h d2 hd2
      · intro h d2 hd2
        exact h d2 (List.mem_cons_of_mem _ hd2)

theorem firstMatch_some_mem {ds : List String}
    {q : String → TemperatureReading → Bool}
    {readings : List TemperatureReading} {r : TemperatureReading}
    (h : firstMatch ds q readings = some r) :
    r ∈ readings ∧ ∃ d ∈ ds, (r.device == d && q d r) = true := by
  induction ds with
  | nil => simp [firstMatch] at h
  | cons d rest ih =>
    cases hf : readings.find? (fun x => x.device == d && q d x) with
    | some r0 =>
      have h2 : some r0 = some r := by rw [← h]; simp [firstMatch, hf]
      injection h2 with h3
      subst h3
      exact ⟨List.mem_of_find?_eq_some hf, d, by simp,
        by simpa using List.find?_some hf⟩
    | none =>
      have h2 : firstMatch rest q readings = some r := by
        rw [← h]; simp [firstMatch, hf]
      obtain ⟨hmem, d2, hd2, hq⟩ := ih h2
      exact ⟨hmem, d2, List.mem_cons_of_mem _ hd2, hq⟩

theorem beq_of_mem_cpu_devices {s d : String} (hd : d ∈ cpu_devices)
    (h : (s == d) = true) :
    (s == "coretemp" || s == "k10temp" || s == "zenpower") = true := by
  simp [cpu_devices] at hd
  rcases hd with rfl | rfl | rfl <;> simp [h]

theorem exists_mem_cpu_devices_of_beq {s : String}
    (h : (s == "coretemp" || s == "k10temp" || s == "zenpower") = true) :
    ∃ d ∈ cpu_devices, (s == d) = true := by
  simp only [Bool.or_eq_true] at h
  rcases h with (h | h) | h
  · exact ⟨"coretemp", by simp [cpu_devices], h⟩
  · exact ⟨"k10temp", by simp [cpu_devices], h⟩
  · exact ⟨"zenpower", by simp [cpu_devices], h⟩

theorem firstMatch_pref_none_of_no_tier1 {readings : List TemperatureReading}
    (hno : ∀ r ∈ readings, cpuTier1 r = false) :
    firstMatch cpu_devices (fun _ r => cpuLabelPref r) readings = none := by
  rw [firstMatch_eq_none_iff]
  intro d hd
  rw [List.find?_eq_none]
  intro r hr hcon
  rw [Bool.and_eq_true] at hcon
  have h1 : cpuTier1 r = true := by
    have hd1 := beq_of_mem_cpu_devices hd hcon.1
    simp [cpuTier1, hd1, hcon.2]
  rw [hno r hr] at h1
  cases h1

theorem firstMatch_any_none_of_no_tier2 {readings : List TemperatureReading}
    (hno : ∀ r ∈ readings, cpuTier2 r = false) :
    firstMatch cpu_devices (fun _ _ => true) readings = none := by
  rw [firstMatch_eq_none_iff]
  intro d hd
  rw [List.find?_eq_none]
  intro r hr hcon
  simp only [Bool.and_true] at hcon
  have h1 : cpuTier2 r = true := beq_of_mem_cpu_devices hd hcon
  rw [hno r hr] at h1
  cases h1

/-- C5: get_cpu_temperature resolves in strict tier order: first a known
CPU device reading with a package or tctl label, else any known CPU device
reading, else any reading whose label contains cpu, else none; and on the
concrete readings (coretemp, Package, 45) and (acpitz, zone0, 38) it
returns 45. -/
theorem cpu_resolution_priority (readings : List TemperatureReading) :
    ((∃ r ∈ readings, cpuTier1 r = true) →
      ∃ r ∈ readings, cpuTier1 r = true ∧
        get_cpu_temperature readings = some r.temperature) ∧
    ((∀ r ∈ readings, cpuTier1 r = false) →
      (∃ r ∈ readings, cpuTier2 r = true) →
      ∃ r ∈ readings, cpuTier2 r = true ∧
        get_cpu_temperature readings = some r.temperature) ∧
    ((∀ r ∈ readings, cpuTier1 r = false) →
      (∀ r ∈ readings, cpuTier2 r = false) →
      (∃ r ∈ readings, cpuTier3 r = true) →
      ∃ r ∈ readings, cpuTier3 r = true ∧
        get_cpu_temperature readings = some r.temperature) ∧
    ((∀ r ∈ readings, cpuTier1 r = false) →
      (∀ r ∈ readings, cpuTier2 r = false) →
      (∀ r ∈ readings, cpuTier3 r = false) →
      get_cpu_temperature readings = none) ∧
    get_cpu_temperature
      [{ label := "Package", device := "coretemp", temperature := 45,
         critical := none, max_temp := none },
       { label := "zone0", device := "acpitz", temperature := 38,
         critical := none, max_temp := none }] = some 45 := by
  refine ⟨?_, ?_, ?_, ?_, by decide⟩
  · intro h
    obtain ⟨r, hr, ht⟩ := h
    cases hfm : firstMatch cpu_devices (fun _ r => cpuLabelPref r) readings with
    | none =>
      exfalso
      rw [firstMatch_eq_none_iff] at hfm
      rw [cpuTier1, Bool.and_eq_true] at ht
      obtain ⟨d, hd, hbeq⟩ := exists_mem_cpu_devices_of_beq ht.1
      have hnone := List.find?_eq_none.mp (hfm d hd) r hr
      exact hnone (by simp [hbeq, ht.2])
    | some r0 =>
      obtain ⟨hmem, d, hd, hq⟩ := firstMatch_some_mem hfm
      rw [Bool.and_eq_true] at hq
      refine ⟨r0, hmem, ?_, ?_⟩
      · have hd1 := beq_of_mem_cpu_devices hd hq.1
        simp [cpuTier1, hd1, hq.2]
      · simp [get_cpu_temperature, hfm]
  · intro hno1 h2
    obtain ⟨r, hr, ht⟩ := h2
    have hfm1 := firstMatch_pref_none_of_no_tier1 hno1
    cases hfm2 : firstMatch cpu_devices (fun _ _ => true) readings with
    | none =>
      exfalso
      rw [firstMatch_eq_none_iff] at hfm2
      obtain ⟨d, hd, hbeq⟩ := exists_mem_cpu_devices_of_beq ht
      have hnone := List.find?_eq_none.mp (hfm2 d hd) r hr
      exact hnone (by simp [hbeq])
    | some r0 =>
      obtain ⟨hmem, d, hd, hq⟩ := firstMatch_some_mem hfm2
      simp only [Bool.and_true] at hq
      refine ⟨r0, hmem, beq_of_mem_cpu_devices hd hq, ?_⟩
      simp [get_cpu_temperature, hfm1, hfm2]
  · intro hno1 hno2 h3
    obtain ⟨r, hr, ht⟩ := h3
    have hfm1 := firstMatch_pref_none_of_no_tier1 hno1
    have hfm2 := firstMatch_any_none_of_no_tier2 hno2
    cases hf3 : readings.find? (fun r => pyIn "cpu" (pyLower r.label)) with
    | none =>
      exact absurd ht (List.find?_eq_none.mp hf3 r hr)
    | some r0 =>
      refine ⟨r0, List.mem_of_find?_eq_some hf3, List.find?_some hf3, ?_⟩
      simp [get_cpu_temperature, hfm1, hfm2, hf3]
  · intro hno1 hno2 hno3
    have hfm1 := firstMatch_pref_none_of_no_tier1 hno1
    have hfm2 := firstMatch_any_none_of_no_tier2 hno2
    have hf3 : readings.find? (fun r => pyIn "cpu" (pyLower r.label)) = none := by
      rw [List.find?_eq_none]
      intro r hr hcon
      have h1 : cpuTier3 r = true := hcon
      rw [hno3 r hr] at h1
      cases h1
    simp [get_cpu_temperature, hfm1, hfm2, hf3]

/-- Witness for C5: tier one fires on the concrete pair from the claim, and
an empty reading list resolves to none. -/
theorem cpu_resolution_priority_witness :
    (∃ r ∈
      [{ label := "Package", device := "coretemp", temperature := 45,
         critical := none, max_temp := none },
       { label := "zone0", device := "acpitz", temperature := 38,
         critical := none, max_temp := none }],
      cpuTier1 r = true ∧
        get_cpu_temperature
          [{ label := "Package", device := "coretemp", temperature := 45,
             critical := none, max_temp := none },
           { label := "zone0", device := "acpitz", temperature := 38,
             critical := none, max_temp := none }] = some r.temperature) ∧
    get_cpu_temperature [] = none :=
  ⟨(cpu_resolution_priority _).1 (by decide),
   (cpu_resolution_priority []).2.2.2.1 (by simp) (by simp) (by simp)⟩

theorem dictGet_dictSet_self (d : List (String × String)) (k v : String) :
    dictGet (dictSet d k v) k = some v := by
  induction d with
  | nil => simp [dictSet, dictGet]
  | cons p rest ih =>
    obtain ⟨k1, v1⟩ := p
    by_cases h : (k1 == k) = true <;> simp [dictSet, dictGet, h, ih]

theorem dictGet_dictSet_ne (d : List (String × String)) (k v k2 : String)
    (h : (k == k2) = false) :
    dictGet (dictSet d k v) k2 = dictGet d k2 := by
  induction d with
  | nil => simp [dictSet, dictGet, h]
  | cons p rest ih =>
    obtain ⟨k1, v1⟩ := p
    by_cases h1 : (k1 == k) = true
    · have hk1 : k1 = k := by simpa using h1
      subst hk1
      simp [dictSet, dictGet, h]
    · simp [dictSet, dictGet, h1, ih]

theorem optOr_assoc {α : Type} (a b c : Option α) :
    optOr (optOr a b) c = optOr a (optOr b c) := by
  cases a <;> rfl

theorem optOr_none_right {α : Type} (a : Option α) : optOr a none = a := by
  cases a <;> rfl

theorem discover_aux (devs : List HwmonDevice) (d : List (String × String))
    (n : String) :
    dictGet
      (devs.foldl
        (fun acc dev =>
          match dev.nameF with
          | SysRead.ok m => dictSet acc m dev.path
          | _ => acc) d) n
      = optOr (lastNamedPath devs n) (dictGet d n) := by
  induction devs generalizing d with
  | nil => rfl
  | cons dev rest ih =>
    rw [List.foldl_cons, ih]
    rw [show lastNamedPath (dev :: rest) n =
      optOr (lastNamedPath rest n)
        (if readsName dev n then some dev.path else none) from rfl]
    rw [optOr_assoc]
    congr 1
    cases hnf : dev.nameF with
    | absent => simp [readsName, hnf, optOr]
    | denied => simp [readsName, hnf, optOr]
    | ok m =>
      by_cases hmn : (m == n) = true
      · have hm : m = n := by simpa using hmn
        subst hm
        simp [readsName, hnf, dictGet_dictSet_self, optOr]
      · have hf : (m == n) = false := by simpa using hmn
        simp [readsName, hnf, hf, optOr, dictGet_dictSet_ne]

/-- C9: the discovered hwmon dict is keyed by declared name, so the lookup
of any name yields the path of the last-enumerated device declaring it, and
on a concrete pair of devices both named foo (with readings 40 and 50
degrees) the full scan returns only the reading of the second device. -/
theorem hwmon_name_keyed_shadowing (devs : List HwmonDevice) (n : String) :
    dictGet (discover_hwmon_devices devs) n = lastNamedPath devs n ∧
    get_all_temperatures [exDevShadowed, exDevShadowing] =
      [{ label := "foo_temp1", device := "foo", temperature := 50,
         critical := none, max_temp := none }] := by
  constructor
  · have h := discover_aux devs [] n
    simp only [dictGet] at h
    rw [optOr_none_right] at h
    exact h
  · have h1 : discover_hwmon_devices [exDevShadowed, exDevShadowing] =
        [("foo", "p2")] := by decide
    have h2 : List.find? (fun dev => dev.path == "p2")
        [exDevShadowed, exDevShadowing] = some exDevShadowing := by decide
    rw [get_all_temperatures, h1]
    simp only [List.flatMap_cons, List.flatMap_nil, List.append_nil]
    simp only [tempsAt, h2]
    simp only [read_temperatures_from_hwmon, exDevShadowing,
      List.filterMap_cons, List.filterMap_nil, readChannel]
    norm_num
    all_goals decide

theorem readChannel_spec {name : String} {ch : TempChannel}
    {r : TemperatureReading} (h : readChannel name ch = some r) :
    ∃ m : Int, ch.inputVal = some m ∧ r.device = name ∧
      r.temperature = (m : ℚ) / 1000 ∧
      r.critical = ch.critV.map (fun c => (c : ℚ) / 1000) ∧
      r.max_temp = ch.maxV.map (fun c => (c : ℚ) / 1000) := by
  cases hin : ch.inputVal with
  | none => simp [readChannel, hin] at h
  | some m =>
    refine ⟨m, rfl, ?_⟩
    cases hlf : ch.labelF with
    | denied => simp [readChannel, hin, hlf] at h
    | absent =>
      simp only [readChannel, hin, hlf, Option.some.injEq] at h
      subst h
      exact ⟨rfl, rfl, rfl, rfl⟩
    | ok s =>
      simp only [readChannel, hin, hlf, Option.some.injEq] at h
      subst h
      exact ⟨rfl, rfl, rfl, rfl⟩

/-- C10: every reading produced by the hwmon scan carries a Celsius value
equal to the parsed millidegree integer divided by exactly 1000, and its
optional critical and max thresholds are the corresponding parsed sibling
values divided by exactly 1000. -/
theorem milli_degree_conversion_exact (devs : List HwmonDevice)
    (r : TemperatureReading) (hr : r ∈ get_all_temperatures devs) :
    ∃ dev ∈ devs, ∃ ch ∈ dev.temps, ∃ m : Int,
      ch.inputVal = some m ∧
      r.temperature = (m : ℚ) / 1000 ∧
      r.critical = ch.critV.map (fun c => (c : ℚ) / 1000) ∧
      r.max_temp = ch.maxV.map (fun c => (c : ℚ) / 1000) := by
  rw [get_all_temperatures, List.mem_flatMap] at hr
  obtain ⟨nv, hnv, hr2⟩ := hr
  rw [read_temperatures_from_hwmon, List.mem_filterMap] at hr2
  obtain ⟨ch, hch, hrc⟩ := hr2
  rw [tempsAt] at hch
  cases hfd : devs.find? (fun dev => dev.path == nv.2) with
  | none => simp [hfd] at hch
  | some dev =>
    simp only [hfd] at hch
    obtain ⟨m, hm, _, htemp, hcrit, hmax⟩ := readChannel_spec hrc
    exact ⟨dev, List.mem_of_find?_eq_some hfd, ch, hch, m, hm, htemp, hcrit, hmax⟩

/-- Witness for C10 on a device exposing 45000 millidegrees with crit
100000 and max 95000. -/
theorem milli_degree_conversion_exact_witness :
    ∃ dev ∈ [exDevMilli], ∃ ch ∈ dev.temps, ∃ m : Int,
      ch.inputVal = some m ∧
      exReadingMilli.temperature = (m : ℚ) / 1000 ∧
      exReadingMilli.critical = ch.critV.map (fun c => (c : ℚ) / 1000) ∧
      exReadingMilli.max_temp = ch.maxV.map (fun c => (c : ℚ) / 1000) := by
  apply milli_degree_conversion_exact [exDevMilli] exReadingMilli
  have h : get_all_temperatures [exDevMilli] = [exReadingMilli] := by
    have h1 : discover_hwmon_devices [exDevMilli] = [("foo", "pm")] := by decide
    have h2 : List.find? (fun dev => dev.path == "pm") [exDevMilli] =
        some exDevMilli := by decide
    rw [get_all_temperatures, h1]
    simp only [List.flatMap_cons, List.flatMap_nil, List.append_nil]
    simp only [tempsAt, h2]
    simp only [read_temperatures_from_hwmon, exDevMilli, exReadingMilli,
      List.filterMap_cons, List.filterMap_nil, readChannel, Option.map]
    norm_num
    all_goals decide
  rw [h]
  simp
